import Mathlib

/-!
Shallow embedding of the export-preparation subsystem of
`framework_tvb/tvb/adapters/exporters/abcexporter.py` (class `ABCExporter`).

External collaborators (the record store, DAO lookups, H5 file access) are
modelled as an abstract `Store` of total functions; Python `None` values and
the exceptions the Python code can raise (`IndexError`, `AttributeError`,
`ExportException`) are modelled explicitly.  The unbounded recursion of
`gather_datatypes_for_copy` is modelled with explicit fuel: a result of
`Option.none` means the recursion budget was exhausted.
-/

namespace TVB

/-- A storage path, split into its containing folder (`dir`) and file name
(`base`); `os.path.dirname` is the `dir` projection. -/
structure Path where
  dir : Nat
  base : Nat
deriving DecidableEq, Repr

/-- A loaded datatype-index entity.  `typeName = Option.none` models the
absence of a `type` attribute (the `hasattr(effective_data_type, "type")`
check); `fkSource = Option.none` models the absence of the `fk_source_gid`
attribute that identifies measure records; `klassAncestors` is the list of
class names in the entity's method-resolution order (its own class included),
so that Python `isinstance(x, C)` is `C ∈ x.klassAncestors`. -/
structure Record where
  gid : Nat
  typeName : Option String
  klassAncestors : List String
  fkSource : Option Nat
  fkFromOperation : Nat
deriving DecidableEq, Repr

/-- A `DataTypeGroup` entity: `id` is the database id used by
`get_datatypes_from_datatype_group(data.id)`, `gid` its global identifier. -/
structure Group where
  id : Nat
  gid : Nat
deriving DecidableEq, Repr

/-- Provenance metadata for a record (`dao.get_operation_by_id`). -/
structure Operation where
  viewModelGid : Nat
deriving DecidableEq, Repr

/-- A Python value flowing through the exporter: `pynone` is Python `None`,
`dt` a simple datatype entity, `group` a `DataTypeGroup` entity. -/
inductive Data where
  | pynone : Data
  | dt : Record → Data
  | group : Group → Data
deriving DecidableEq, Repr

/-- The external record store and DAO, as total functions.

`entities` models `load_entity_by_gid`.  Modelled from the spec: the loader
`load_entity_by_gid` (tvb.core.entities.load, not part of the analysed
sources) is, per the interface contract, `loadRecordByGid(gid) -> Record`,
failing only on unknown gids; it is modelled as a total function, so every
gid the traversal meets resolves to a record and never to `None`.

`groupMembers` models `ProjectService.get_datatypes_from_datatype_group`
(member gids in group-stored order); `pathFor` models
`h5.path_for_stored_index`; `refsAt` models opening the H5 file at a path and
calling `gather_references` (an entry `Option.none` is a falsy `ref_gid`);
`opGroupOf` models `ts.parent_operation.fk_operation_group` for the entity
with the given gid; `groupByOpGroup` models
`dao.get_datatypegroup_by_op_group_id`; `measureGroup` models
`dao.get_datatype_measure_group_from_ts_from_pse`; `opById` models
`dao.get_operation_by_id`; `vmRefs` models the first component of
`h5.gather_references_of_view_model(view_model_gid, folder,
only_view_models=True)`. -/
structure Store where
  entities : Nat → Record
  groupMembers : Nat → List Nat
  pathFor : Record → Path
  refsAt : Path → List (Option Nat)
  opGroupOf : Nat → Nat
  groupByOpGroup : Nat → Option Group
  measureGroup : Nat → Option Group
  opById : Nat → Operation
  vmRefs : Nat → Nat → List Path

/-- An exporter variant: `supportedTypes` models `get_supported_types()` as
the list of supported class names, `skipGroupDatatypes` models the
`skip_group_datatypes()` hook (`False` in the base class, overridable). -/
structure Exporter where
  supportedTypes : List String
  skipGroupDatatypes : Bool

/-- The exceptions the modelled code can raise. -/
inductive PyErr where
  | indexError : PyErr
  | attributeError : PyErr
  | exportException : String → PyErr
deriving DecidableEq, Repr

/-- The module-level exclusion list `EXCLUDED_DATATYPES`. -/
def EXCLUDED_DATATYPES : List String :=
  ["Cortex", "CortexActivity", "CapEEGActivity", "Cap", "ValueWrapper",
   "SpatioTermporalMask"]

/-- `ABCExporter.is_data_a_group`: `isinstance(data, DataTypeGroup)`. -/
def is_data_a_group : Data → Bool
  | Data.group _ => true
  | _ => false

/-- `ABCExporter._get_effective_data_type`: for a group, `None` when group
datatypes are skipped or the member list is empty, else the entity loaded
from the first member's gid; for a simple value, the value itself (so Python
`None` stays `None`). -/
def _get_effective_data_type (st : Store) (e : Exporter) : Data → Option Record
  | Data.group g =>
      if e.skipGroupDatatypes then Option.none
      else
        match st.groupMembers g.id with
        | [] => Option.none
        | m :: _ => Option.some (st.entities m)
  | Data.dt r => Option.some r
  | Data.pynone => Option.none

/-- The exclusion test inside `accepts`:
`hasattr(effective_data_type, "type") and effective_data_type.type in
EXCLUDED_DATATYPES`. -/
def typeExcluded (r : Record) : Bool :=
  match r.typeName with
  | Option.some t => decide (t ∈ EXCLUDED_DATATYPES)
  | Option.none => false

/-- `ABCExporter.accepts`: false when no effective data type resolves, false
when the effective type's `type` name is globally excluded, otherwise true
iff the effective type is an instance of some supported type (Python
`isinstance`, i.e. membership of the supported class in the entity's
ancestor classes). -/
def accepts (st : Store) (e : Exporter) (data : Data) : Bool :=
  match _get_effective_data_type st e data with
  | Option.none => false
  | Option.some r =>
      if typeExcluded r then false
      else e.supportedTypes.any (fun s => decide (s ∈ r.klassAncestors))

/-- `ABCExporter._get_all_data_types_arr`: a group flattens to its members,
each loaded by gid, in group-stored order; anything else (including Python
`None`) is returned as a singleton. -/
def _get_all_data_types_arr (st : Store) : Data → List Data
  | Data.group g => (st.groupMembers g.id).map (fun m => Data.dt (st.entities m))
  | d => [d]

/-- The `for _, ref_gid in sub_dt_refs` loop body of
`gather_datatypes_for_copy`: falsy gids are skipped, each truthy gid is
loaded and recursively gathered via `step`. -/
def runRefs (step : Nat → List Path → Option (List Path)) :
    List (Option Nat) → List Path → Option (List Path)
  | [], acc => Option.some acc
  | Option.none :: rest, acc => runRefs step rest acc
  | Option.some g :: rest, acc =>
      match step g acc with
      | Option.none => Option.none
      | Option.some acc2 => runRefs step rest acc2

/-- `ABCExporter.gather_datatypes_for_copy`, fuel-indexed.  The accumulator
`dt_path_list` receives the record's own path when not already present, and
the references found in the record's file are followed recursively,
unconditionally — the Python code has no cycle guard, so recursion depth is
bounded here only by `fuel`, and `Option.none` means the budget ran out. -/
def gather_datatypes_for_copy (fuel : Nat) (st : Store) (data : Record)
    (dt_path_list : List Path) : Option (List Path) :=
  match fuel with
  | 0 => Option.none
  | Nat.succ n =>
      let data_path := st.pathFor data
      let acc1 :=
        if data_path ∈ dt_path_list then dt_path_list
        else dt_path_list ++ [data_path]
      runRefs (fun g a => gather_datatypes_for_copy n st (st.entities g) a)
        (st.refsAt data_path) acc1

/-- Python attribute access used by `prepare_datatypes_for_export`:
`hasattr(x, "fk_source_gid")` together with the attribute value. -/
def fkSourceOf : Data → Option Nat
  | Data.dt r => r.fkSource
  | _ => Option.none

/-- Python attribute access `x.gid`; `Option.none` models the
`AttributeError` raised when `x` is `None`. -/
def gidOf : Data → Option Nat
  | Data.dt r => Option.some r.gid
  | Data.group g => Option.some g.gid
  | Data.pynone => Option.none

/-- Wraps an optional DAO lookup result back into a Python value: a missing
group is Python `None`. -/
def dataOfOpt : Option Group → Data
  | Option.none => Data.pynone
  | Option.some g => Data.group g

/-- The export manifest `op_file_dict`: folder → ordered file list (folders
never assigned map to `[]`). -/
def Manifest : Type := Nat → List Path

/-- The fresh `dict()` at the start of the manifest loop. -/
def emptyManifest : Manifest := fun _ => []

/-- Python dict assignment `op_file_dict[f] = l` (overwriting any previous
list for `f`). -/
def setFolder (m : Manifest) (f : Nat) (l : List Path) : Manifest :=
  fun x => if x = f then l else m x

/-- One iteration of the `for dt in all_datatypes` manifest loop: resolve the
record's path, assign `[h5_path]` to its folder and extend with the
view-model reference files of its producing operation.  Python `None` in the
list makes `h5.path_for_stored_index` raise (`AttributeError`); the metadata
stripping calls are side-effect-only and do not change the manifest. -/
def manifestStep (st : Store) (m : Manifest) : Data → Except PyErr Manifest
  | Data.dt r =>
      let h5_path := st.pathFor r
      let op_folder := h5_path.dir
      let op := st.opById r.fkFromOperation
      let vms := st.vmRefs op.viewModelGid op_folder
      Except.ok (setFolder m op_folder (h5_path :: vms))
  | _ => Except.error PyErr.attributeError

/-- The whole `for dt in all_datatypes` manifest loop. -/
def buildManifest (st : Store) : List Data → Manifest → Except PyErr Manifest
  | [], m => Except.ok m
  | d :: rest, m =>
      match manifestStep st m d with
      | Except.error err => Except.error err
      | Except.ok m2 => buildManifest st rest m2

/-- The tail of `prepare_datatypes_for_export` after the combined list is
formed: the emptiness guard raising `ExportException`, then the manifest
loop. -/
def finishExport (st : Store) (combined : List Data) :
    Except PyErr (List Data × Manifest) :=
  if combined.length = 0 then
    Except.error
      (PyErr.exportException "Could not export a data type group with no data!")
  else
    match buildManifest st combined emptyManifest with
    | Except.error err => Except.error err
    | Except.ok m => Except.ok (combined, m)

/-- `ABCExporter.prepare_datatypes_for_export`.  `all_datatypes[0]` on an
empty flattening raises `IndexError`; when the first record carries
`fk_source_gid`, the paired time-series group is flattened and prepended,
otherwise the derived measure group is flattened and appended; then
`finishExport`. -/
def prepare_datatypes_for_export (st : Store) (data : Data) :
    Except PyErr (List Data × Manifest) :=
  let all_datatypes := _get_all_data_types_arr st data
  match all_datatypes with
  | [] => Except.error PyErr.indexError
  | hd :: rest =>
      match fkSourceOf hd with
      | Option.some src =>
          let ts := st.entities src
          let data_2 := dataOfOpt (st.groupByOpGroup (st.opGroupOf ts.gid))
          finishExport st (_get_all_data_types_arr st data_2 ++ (hd :: rest))
      | Option.none =>
          match gidOf hd with
          | Option.none => Except.error PyErr.attributeError
          | Option.some g =>
              let data_2 := dataOfOpt (st.measureGroup g)
              finishExport st ((hd :: rest) ++ _get_all_data_types_arr st data_2)

/-! Concrete stores and entities used by witnesses and counterexamples. -/

/-- A record with an excluded `type` name (`Cortex`). -/
def rec5 : Record := ⟨1, Option.some "Cortex", ["Cortex"], Option.none, 0⟩

/-- A store resolving every gid to `rec5`. -/
def st5 : Store :=
  ⟨fun _ => rec5, fun _ => [], fun _ => ⟨0, 0⟩, fun _ => [], fun _ => 0,
   fun _ => Option.none, fun _ => Option.none, fun _ => ⟨0⟩, fun _ _ => []⟩

/-- A store whose groups are all empty. -/
def st6 : Store :=
  ⟨fun _ => rec5, fun _ => [], fun _ => ⟨0, 0⟩, fun _ => [], fun _ => 0,
   fun _ => Option.none, fun _ => Option.none, fun _ => ⟨0⟩, fun _ _ => []⟩

/-- A plain record with a non-excluded type. -/
def rec7 : Record :=
  ⟨2, Option.some "ConnectivityIndex", ["ConnectivityIndex"], Option.none, 0⟩

/-- An empty group. -/
def g7 : Group := ⟨3, 30⟩

/-- A store whose groups are all empty, every gid resolving to `rec7`. -/
def st7 : Store :=
  ⟨fun _ => rec7, fun _ => [], fun _ => ⟨0, 0⟩, fun _ => [], fun _ => 0,
   fun _ => Option.none, fun _ => Option.none, fun _ => ⟨0⟩, fun _ _ => []⟩

/-- A record whose class is a strict subtype of `TimeSeries`. -/
def rec9 : Record :=
  ⟨3, Option.some "TimeSeriesRegion",
   ["TimeSeriesRegionIndex", "TimeSeries", "HasTraitsIndex"], Option.none, 0⟩

/-- A store resolving every gid to `rec9`. -/
def st9 : Store :=
  ⟨fun _ => rec9, fun _ => [], fun _ => ⟨0, 0⟩, fun _ => [], fun _ => 0,
   fun _ => Option.none, fun _ => Option.none, fun _ => ⟨0⟩, fun _ _ => []⟩

/-- The single member of group `g8`, of a supported type. -/
def m8 : Record := ⟨10, Option.some "TimeSeries", ["TimeSeries"], Option.none, 0⟩

/-- A one-member group. -/
def g8 : Group := ⟨5, 50⟩

/-- A store in which group id 5 has the single member gid 10 = `m8`. -/
def st8 : Store :=
  ⟨fun _ => m8, fun _ => [10], fun _ => ⟨0, 0⟩, fun _ => [], fun _ => 0,
   fun _ => Option.none, fun _ => Option.none, fun _ => ⟨0⟩, fun _ _ => []⟩

/-- An exporter supporting `TimeSeries` that skips group datatypes. -/
def e8 : Exporter := ⟨["TimeSeries"], true⟩

/-- An exporter supporting `TimeSeries` that resolves group datatypes. -/
def e8b : Exporter := ⟨["TimeSeries"], false⟩

/-- C5: whenever the effective data type of a record resolves and its
declared `type` name is in `EXCLUDED_DATATYPES`, `accepts` returns `false`,
whatever the exporter's supported-type configuration. -/
theorem accepts_excluded_false (st : Store) (e : Exporter) (data : Data)
    (r : Record) (t : String)
    (h1 : _get_effective_data_type st e data = Option.some r)
    (h2 : r.typeName = Option.some t) (h3 : t ∈ EXCLUDED_DATATYPES) :
    accepts st e data = false := by
  have hex : typeExcluded r = true := by
    unfold typeExcluded
    rw [h2]
    simpa using h3
  unfold accepts
  rw [h1]
  simp [hex]

/-- Witness for C5: a `Cortex` record is rejected even by an exporter whose
supported types contain its exact class. -/
theorem accepts_excluded_false_witness :
    _get_effective_data_type st5 ⟨["Cortex"], false⟩ (Data.dt rec5) =
      Option.some rec5 ∧
    accepts st5 ⟨["Cortex"], false⟩ (Data.dt rec5) = false :=
  ⟨rfl, accepts_excluded_false st5 ⟨["Cortex"], false⟩ (Data.dt rec5) rec5
    "Cortex" rfl rfl (by decide)⟩

/-- C6: when no effective data type resolves — the record is a group with no
members, or group resolution is disabled by `skip_group_datatypes` —
`accepts` returns `false`; being a total Bool-valued function, it never
raises. -/
theorem accepts_unresolved_false (st : Store) (e : Exporter) (g : Group)
    (h : st.groupMembers g.id = [] ∨ e.skipGroupDatatypes = true) :
    accepts st e (Data.group g) = false := by
  have heff : _get_effective_data_type st e (Data.group g) = Option.none := by
    simp only [_get_effective_data_type]
    rcases h with h | h
    · rw [h]
      cases hsk : e.skipGroupDatatypes <;> simp
    · simp [h]
  unfold accepts
  rw [heff]

/-- Witness for C6: an empty group is rejected. -/
theorem accepts_unresolved_false_witness :
    st6.groupMembers g7.id = [] ∧
    accepts st6 ⟨["ConnectivityIndex"], false⟩ (Data.group g7) = false :=
  ⟨rfl, accepts_unresolved_false st6 ⟨["ConnectivityIndex"], false⟩ g7
    (Or.inl rfl)⟩

/-- C7: flattening a non-group record yields exactly the singleton of that
record unchanged; flattening a group yields its members, each loaded by gid,
in group-stored order; an empty group flattens to the empty sequence; and no
element of a group flattening is an unresolved or `None` entry. -/
theorem flatten_behavior (st : Store) (r : Record) (g : Group) :
    _get_all_data_types_arr st (Data.dt r) = [Data.dt r] ∧
    _get_all_data_types_arr st (Data.group g) =
      (st.groupMembers g.id).map (fun m => Data.dt (st.entities m)) ∧
    (st.groupMembers g.id = [] →
      _get_all_data_types_arr st (Data.group g) = []) ∧
    (∀ d ∈ _get_all_data_types_arr st (Data.group g),
      ∃ rr : Record, d = Data.dt rr) := by
  refine ⟨rfl, rfl, ?_, ?_⟩
  · intro h
    simp [_get_all_data_types_arr, h]
  · intro d hd
    simp only [_get_all_data_types_arr, List.mem_map] at hd
    obtain ⟨m, _, hm⟩ := hd
    exact ⟨st.entities m, hm.symm⟩

/-- Witness for C7: a concrete non-group record flattens to its singleton and
a concrete empty group flattens to the empty list. -/
theorem flatten_behavior_witness :
    _get_all_data_types_arr st7 (Data.dt rec7) = [Data.dt rec7] ∧
    _get_all_data_types_arr st7 (Data.group g7) = [] :=
  ⟨(flatten_behavior st7 rec7 g7).1, (flatten_behavior st7 rec7 g7).2.2.1 rfl⟩

/-- C9: when the effective data type resolves and is not excluded, `accepts`
is `true` exactly when some declared supported type occurs among the
effective type's ancestor classes — the `isinstance` test, so instances of
subtypes of a supported type are accepted. -/
theorem accepts_supported_iff (st : Store) (e : Exporter) (data : Data)
    (r : Record)
    (h1 : _get_effective_data_type st e data = Option.some r)
    (h2 : typeExcluded r = false) :
    accepts st e data = true ↔
      ∃ s ∈ e.supportedTypes, s ∈ r.klassAncestors := by
  unfold accepts
  rw [h1]
  simp [h2, List.any_eq_true]

/-- Witness for C9: a `TimeSeriesRegionIndex` record, a strict subtype of the
supported `TimeSeries`, is accepted. -/
theorem accepts_supported_iff_witness :
    accepts st9 ⟨["TimeSeries"], false⟩ (Data.dt rec9) = true :=
  (accepts_supported_iff st9 ⟨["TimeSeries"], false⟩ (Data.dt rec9) rec9 rfl
    (by decide)).mpr ⟨"TimeSeries", by decide, by decide⟩

/-- C8 counterexample: for an exporter variant whose
`skip_group_datatypes()` is `True`, a one-member group whose member's type
is supported has `accepts(g) = false` while `accepts(m1) = true`, so the
claimed equality fails for that exporter variant. -/
theorem accepts_group_skip_counterexample :
    st8.groupMembers g8.id = [10] ∧ st8.entities 10 = m8 ∧
    ¬ (accepts st8 e8 (Data.group g8) = accepts st8 e8 (Data.dt m8)) := by
  decide

/-- C8 amended: for every non-empty group and every exporter variant whose
group resolution is not disabled (`skip_group_datatypes()` false), `accepts`
on the group equals `accepts` on the entity loaded from the group's first
member — the representative-type rule. -/
theorem accepts_group_eq_first_member (st : Store) (e : Exporter) (g : Group)
    (m : Nat) (rest : List Nat)
    (hskip : e.skipGroupDatatypes = false)
    (hmem : st.groupMembers g.id = m :: rest) :
    accepts st e (Data.group g) = accepts st e (Data.dt (st.entities m)) := by
  have heff : _get_effective_data_type st e (Data.group g) =
      Option.some (st.entities m) := by
    simp only [_get_effective_data_type]
    rw [hmem]
    simp [hskip]
  have heff2 : _get_effective_data_type st e (Data.dt (st.entities m)) =
      Option.some (st.entities m) := rfl
  unfold accepts
  rw [heff, heff2]

/-- Witness for C8's amended claim: with group resolution enabled, the
one-member group and its member get the same verdict. -/
theorem accepts_group_eq_first_member_witness :
    e8b.skipGroupDatatypes = false ∧ st8.groupMembers g8.id = [10] ∧
    accepts st8 e8b (Data.group g8) =
      accepts st8 e8b (Data.dt (st8.entities 10)) :=
  ⟨rfl, rfl, accepts_group_eq_first_member st8 e8b g8 10 [] rfl rfl⟩

/-- Accumulator extension: the second list extends the first at the end, and
duplicate-freeness is preserved. -/
def ExtendsAcc (a b : List Path) : Prop :=
  (∃ t, b = a ++ t) ∧ (a.Nodup → b.Nodup)

lemma extendsAcc_refl (a : List Path) : ExtendsAcc a a :=
  ⟨⟨[], by simp⟩, id⟩

lemma extendsAcc_trans {a b c : List Path} (h1 : ExtendsAcc a b)
    (h2 : ExtendsAcc b c) : ExtendsAcc a c := by
  obtain ⟨⟨t1, ht1⟩, n1⟩ := h1
  obtain ⟨⟨t2, ht2⟩, n2⟩ := h2
  exact ⟨⟨t1 ++ t2, by rw [ht2, ht1, List.append_assoc]⟩, fun hn => n2 (n1 hn)⟩

lemma extendsAcc_insert (p : Path) (a : List Path) :
    ExtendsAcc a (if p ∈ a then a else a ++ [p]) := by
  by_cases hp : p ∈ a
  · rw [if_pos hp]
    exact extendsAcc_refl a
  · rw [if_neg hp]
    refine ⟨⟨[p], rfl⟩, fun hn => ?_⟩
    rw [List.nodup_append]
    refine ⟨hn, List.nodup_singleton p, ?_⟩
    intro x hx hxp
    rw [List.mem_singleton] at hxp
    exact hp (hxp ▸ hx)

lemma runRefs_extendsAcc (step : Nat → List Path → Option (List Path))
    (hstep : ∀ g a r, step g a = Option.some r → ExtendsAcc a r) :
    ∀ (l : List (Option Nat)) (acc res : List Path),
      runRefs step l acc = Option.some res → ExtendsAcc acc res := by
  intro l
  induction l with
  | nil =>
      intro acc res h
      simp only [runRefs, Option.some.injEq] at h
      exact h ▸ extendsAcc_refl acc
  | cons hd tl ih =>
      intro acc res h
      cases hd with
      | none =>
          simp only [runRefs] at h
          exact ih acc res h
      | some g =>
          simp only [runRefs] at h
          cases hs : step g acc with
          | none => rw [hs] at h; cases h
          | some acc2 =>
              rw [hs] at h
              exact extendsAcc_trans (hstep g acc acc2 hs) (ih acc2 res h)

lemma gather_extendsAcc :
    ∀ (fuel : Nat) (st : Store) (data : Record) (acc res : List Path),
      gather_datatypes_for_copy fuel st data acc = Option.some res →
      ExtendsAcc acc res := by
  intro fuel
  induction fuel with
  | zero =>
      intro st data acc res h
      simp [gather_datatypes_for_copy] at h
  | succ n ih =>
      intro st data acc res h
      simp only [gather_datatypes_for_copy] at h
      exact extendsAcc_trans (extendsAcc_insert (st.pathFor data) acc)
        (runRefs_extendsAcc _ (fun g a r hr => ih st (st.entities g) a r hr)
          _ _ _ h)

/-- C10: whenever `gather_datatypes_for_copy` completes, the accumulator
`dt_path_list` is treated append-only — every entry present on entry is
still present in its original position (the input is an initial segment of
the output) — and a duplicate-free accumulator stays duplicate-free,
because paths are only appended after a membership check. -/
theorem gather_append_only (fuel : Nat) (st : Store) (data : Record)
    (acc res : List Path)
    (h : gather_datatypes_for_copy fuel st data acc = Option.some res) :
    (∃ t, res = acc ++ t) ∧ (acc.Nodup → res.Nodup) :=
  gather_extendsAcc fuel st data acc res h

/-- Witness for C10: a one-record reference-free store, starting from the
empty accumulator. -/
theorem gather_append_only_witness :
    (∃ t, [(⟨0, 0⟩ : Path)] = [] ++ t) ∧
    (List.Nodup ([] : List Path) → List.Nodup [(⟨0, 0⟩ : Path)]) :=
  gather_append_only 1 st7 rec7 [] [⟨0, 0⟩] rfl

/-- Record `A` of the two-cycle. -/
def recA : Record := ⟨1, Option.none, [], Option.none, 0⟩

/-- Record `B` of the two-cycle. -/
def recB : Record := ⟨2, Option.none, [], Option.none, 0⟩

/-- A store in which record `A` (gid 1) has a file referencing gid 2 and
record `B` (gid 2) has a file referencing gid 1 — a reference cycle. -/
def stCyc : Store :=
  ⟨fun g => if g = 1 then recA else recB,
   fun _ => [],
   fun r => if r.gid = 1 then ⟨0, 1⟩ else ⟨0, 2⟩,
   fun p => if p.base = 1 then [Option.some 2] else [Option.some 1],
   fun _ => 0, fun _ => Option.none, fun _ => Option.none, fun _ => ⟨0⟩,
   fun _ _ => []⟩

lemma gather_cycle_pair : ∀ fuel : Nat,
    (∀ acc, gather_datatypes_for_copy fuel stCyc (stCyc.entities 1) acc =
      Option.none) ∧
    (∀ acc, gather_datatypes_for_copy fuel stCyc (stCyc.entities 2) acc =
      Option.none) := by
  intro fuel
  induction fuel with
  | zero => exact ⟨fun _ => rfl, fun _ => rfl⟩
  | succ n ih =>
      constructor
      · intro acc
        have h1 : gather_datatypes_for_copy (n + 1) stCyc (stCyc.entities 1)
            acc =
            runRefs (fun g a =>
                gather_datatypes_for_copy n stCyc (stCyc.entities g) a)
              [Option.some 2]
              (if (⟨0, 1⟩ : Path) ∈ acc then acc else acc ++ [⟨0, 1⟩]) := rfl
        rw [h1]
        simp only [runRefs]
        rw [ih.2]
      · intro acc
        have h1 : gather_datatypes_for_copy (n + 1) stCyc (stCyc.entities 2)
            acc =
            runRefs (fun g a =>
                gather_datatypes_for_copy n stCyc (stCyc.entities g) a)
              [Option.some 1]
              (if (⟨0, 2⟩ : Path) ∈ acc then acc else acc ++ [⟨0, 2⟩]) := rfl
        rw [h1]
        simp only [runRefs]
        rw [ih.1]

/-- C2: on the concrete two-record reference cycle `A → B → A`, the
depth-first traversal `gather_datatypes_for_copy` never completes: it
exhausts every finite recursion budget, because the membership check only
guards appending the path, not the recursive descent. -/
theorem gather_cycle_diverges (fuel : Nat) (acc : List Path) :
    gather_datatypes_for_copy fuel stCyc recA acc = Option.none :=
  (gather_cycle_pair fuel).1 acc

lemma finishExport_ok (st : Store) (comb c : List Data) (m : Manifest)
    (h : finishExport st comb = Except.ok (c, m)) :
    c = comb ∧ buildManifest st comb emptyManifest = Except.ok m := by
  unfold finishExport at h
  by_cases hl : comb.length = 0
  · rw [if_pos hl] at h
    cases h
  · rw [if_neg hl] at h
    cases hb : buildManifest st comb emptyManifest with
    | error err => rw [hb] at h; cases h
    | ok m2 =>
        rw [hb] at h
        simp only [Except.ok.injEq, Prod.mk.injEq] at h
        obtain ⟨h1, h2⟩ := h
        exact ⟨h1.symm, by rw [h2]⟩

lemma prepare_eq_of_flatten_nil (st : Store) (data : Data)
    (hall : _get_all_data_types_arr st data = []) :
    prepare_datatypes_for_export st data = Except.error PyErr.indexError := by
  unfold prepare_datatypes_for_export
  rw [hall]

lemma prepare_eq_of_flatten_cons (st : Store) (data : Data) (hd : Data)
    (rest : List Data)
    (hall : _get_all_data_types_arr st data = hd :: rest) :
    prepare_datatypes_for_export st data =
      match fkSourceOf hd with
      | Option.some src =>
          finishExport st
            (_get_all_data_types_arr st
                (dataOfOpt (st.groupByOpGroup (st.opGroupOf
                  (st.entities src).gid))) ++ (hd :: rest))
      | Option.none =>
          match gidOf hd with
          | Option.none => Except.error PyErr.attributeError
          | Option.some g =>
              finishExport st
                ((hd :: rest) ++
                  _get_all_data_types_arr st (dataOfOpt (st.measureGroup g))) := by
  unfold prepare_datatypes_for_export
  rw [hall]

/-- C1: for every input whose flattening is non-empty, the combined record
list returned by `prepare_datatypes_for_export` is order-deterministic: when
the first flattened record carries a source time-series reference
(`fk_source_gid`), the result is the flattened paired time-series group
followed by the original records (`T ++ M`); otherwise it is the original
records followed by the flattened derived measure group (`P ++ D`). -/
theorem prepare_order_deterministic (st : Store) (data : Data) (hd : Data)
    (rest : List Data) (combined : List Data) (m : Manifest)
    (hall : _get_all_data_types_arr st data = hd :: rest)
    (hok : prepare_datatypes_for_export st data = Except.ok (combined, m)) :
    (∀ src, fkSourceOf hd = Option.some src →
      combined =
        _get_all_data_types_arr st
            (dataOfOpt (st.groupByOpGroup (st.opGroupOf
              (st.entities src).gid))) ++ (hd :: rest)) ∧
    (fkSourceOf hd = Option.none →
      ∃ g, gidOf hd = Option.some g ∧
        combined = (hd :: rest) ++
          _get_all_data_types_arr st (dataOfOpt (st.measureGroup g))) := by
  rw [prepare_eq_of_flatten_cons st data hd rest hall] at hok
  constructor
  · intro src hsrc
    rw [hsrc] at hok
    exact (finishExport_ok st _ _ _ hok).1
  · intro hnone
    rw [hnone] at hok
    cases hg : gidOf hd with
    | none => rw [hg] at hok; cases hok
    | some g =>
        rw [hg] at hok
        exact ⟨g, rfl, (finishExport_ok st _ _ _ hok).1⟩

/-- A primary (non-measure) record, the export target of the C1 witness. -/
def rP : Record :=
  ⟨100, Option.some "DataTypeMatrix", ["DataTypeMatrix"], Option.none, 0⟩

/-- The derived measure record paired with `rP`. -/
def rD : Record :=
  ⟨101, Option.some "DatatypeMeasureIndex", ["DatatypeMeasureIndex"],
   Option.some 100, 0⟩

/-- The derived measure group containing `rD`. -/
def gM : Group := ⟨9, 90⟩

/-- A store pairing primary record `rP` with the measure group `gM = [rD]`. -/
def st1 : Store :=
  ⟨fun g => if g = 101 then rD else rP,
   fun i => if i = 9 then [101] else [],
   fun r => ⟨r.gid, 0⟩,
   fun _ => [],
   fun _ => 0,
   fun _ => Option.none,
   fun g => if g = 100 then Option.some gM else Option.none,
   fun _ => ⟨0⟩,
   fun _ _ => []⟩

/-- The concrete run of `prepare_datatypes_for_export` on `rP` in `st1`. -/
def pres1 : Except PyErr (List Data × Manifest) :=
  prepare_datatypes_for_export st1 (Data.dt rP)

/-- The combined record list of that run. -/
def pc1 : List Data :=
  match pres1 with
  | Except.ok (c, _) => c
  | _ => []

/-- The manifest of that run. -/
def pm1 : Manifest :=
  match pres1 with
  | Except.ok (_, m) => m
  | _ => emptyManifest

/-- Witness for C1: on the concrete primary record `rP`, the combined list
is the original records followed by the flattened derived measure group. -/
theorem prepare_order_deterministic_witness :
    pc1 = [Data.dt rP] ++
      _get_all_data_types_arr st1 (dataOfOpt (st1.measureGroup 100)) := by
  obtain ⟨g, hg, hc⟩ :=
    (prepare_order_deterministic st1 (Data.dt rP) (Data.dt rP) [] pc1 pm1 rfl
      rfl).2 rfl
  have hg100 : g = 100 := by
    simp only [gidOf, rP, Option.some.injEq] at hg
    exact hg.symm
  rw [hc, hg100]

/-- The empty group of the C3 failing input. -/
def g3 : Group := ⟨7, 70⟩

/-- A store in which every group is empty. -/
def st3 : Store :=
  ⟨fun _ => rP, fun _ => [], fun r => ⟨r.gid, 0⟩, fun _ => [], fun _ => 0,
   fun _ => Option.none, fun _ => Option.none, fun _ => ⟨0⟩, fun _ _ => []⟩

/-- C3 (code bug): exporting an empty group — a flattening with zero
records — makes `prepare_datatypes_for_export` fail with `IndexError` from
the unguarded `all_datatypes[0]` access, not with the distinct
`ExportException` the emptiness guard would raise; that guard sits after the
subscript and is unreachable. -/
theorem prepare_empty_raises_index_error :
    _get_all_data_types_arr st3 (Data.group g3) = [] ∧
    prepare_datatypes_for_export st3 (Data.group g3) =
      Except.error PyErr.indexError ∧
    PyErr.indexError ≠
      PyErr.exportException "Could not export a data type group with no data!" :=
  ⟨rfl, rfl, by decide⟩

lemma setFolder_nodup (m : Manifest) (fl : Nat) (l : List Path)
    (h0 : ∀ f, (m f).Nodup) (hl : l.Nodup) :
    ∀ f, ((setFolder m fl l) f).Nodup := by
  intro f
  unfold setFolder
  by_cases hf : f = fl
  · rw [if_pos hf]; exact hl
  · rw [if_neg hf]; exact h0 f

lemma buildManifest_nodup (st : Store)
    (hvm1 : ∀ g d, (st.vmRefs g d).Nodup)
    (hvm2 : ∀ r : Record,
      st.pathFor r ∉
        st.vmRefs (st.opById r.fkFromOperation).viewModelGid
          (st.pathFor r).dir) :
    ∀ (l : List Data) (m0 : Manifest), (∀ f, (m0 f).Nodup) →
      ∀ m, buildManifest st l m0 = Except.ok m → ∀ f, (m f).Nodup := by
  intro l
  induction l with
  | nil =>
      intro m0 h0 m hm f
      simp only [buildManifest, Except.ok.injEq] at hm
      exact hm ▸ h0 f
  | cons d rest ih =>
      intro m0 h0 m hm f
      cases d with
      | dt r =>
          simp only [buildManifest, manifestStep] at hm
          refine ih _ ?_ m hm f
          refine setFolder_nodup _ _ _ h0 ?_
          rw [List.nodup_cons]
          exact ⟨hvm2 r, hvm1 _ _⟩
      | pynone =>
          simp only [buildManifest, manifestStep] at hm
          cases hm
      | group g =>
          simp only [buildManifest, manifestStep] at hm
          cases hm

lemma prepare_ok_buildManifest (st : Store) (data : Data)
    (combined : List Data) (m : Manifest)
    (hok : prepare_datatypes_for_export st data = Except.ok (combined, m)) :
    buildManifest st combined emptyManifest = Except.ok m := by
  cases hall : _get_all_data_types_arr st data with
  | nil => rw [prepare_eq_of_flatten_nil st data hall] at hok; cases hok
  | cons hd rest =>
      rw [prepare_eq_of_flatten_cons st data hd rest hall] at hok
      cases hsrc : fkSourceOf hd with
      | some src =>
          rw [hsrc] at hok
          obtain ⟨h1, h2⟩ := finishExport_ok st _ _ _ hok
          rw [h1]
          exact h2
      | none =>
          rw [hsrc] at hok
          cases hg : gidOf hd with
          | none => rw [hg] at hok; cases hok
          | some g =>
              rw [hg] at hok
              obtain ⟨h1, h2⟩ := finishExport_ok st _ _ _ hok
              rw [h1]
              exact h2

/-- C4: the manifest built by `prepare_datatypes_for_export` has no file
path twice in any folder's file list — each folder's list is one record's
own path followed by its operation's view-model reference files, and a
folder reached again is overwritten, never extended — provided the external
view-model gather returns duplicate-free lists that do not contain the
record's own data file; and the reference-closure accumulator of
`gather_datatypes_for_copy`, started empty, never collects a path twice
however many reference routes reach it. -/
theorem manifest_folder_lists_nodup (st : Store) (data : Data)
    (combined : List Data) (m : Manifest)
    (hvm1 : ∀ g d, (st.vmRefs g d).Nodup)
    (hvm2 : ∀ r : Record,
      st.pathFor r ∉
        st.vmRefs (st.opById r.fkFromOperation).viewModelGid
          (st.pathFor r).dir)
    (hok : prepare_datatypes_for_export st data = Except.ok (combined, m)) :
    (∀ f, (m f).Nodup) ∧
    (∀ (fuel : Nat) (r : Record) (res : List Path),
      gather_datatypes_for_copy fuel st r [] = Option.some res →
      res.Nodup) := by
  constructor
  · exact buildManifest_nodup st hvm1 hvm2 combined emptyManifest
      (fun _ => List.nodup_nil) m (prepare_ok_buildManifest st data combined m hok)
  · intro fuel r res h
    exact (gather_extendsAcc fuel st r [] res h).2 List.nodup_nil

/-- Witness for C4: the concrete run of the C1 store has duplicate-free
folder lists and a duplicate-free gather closure. -/
theorem manifest_folder_lists_nodup_witness :
    (∀ f, (pm1 f).Nodup) ∧
    (∀ (fuel : Nat) (r : Record) (res : List Path),
      gather_datatypes_for_copy fuel st1 r [] = Option.some res →
      res.Nodup) :=
  manifest_folder_lists_nodup st1 (Data.dt rP) pc1 pm1
    (fun _ _ => List.nodup_nil) (fun _ => List.not_mem_nil _) rfl

end TVB
